import Mathlib

/-!
Verification of the configuration CRUD handlers in
`polls_and_questions/views.py` (repository `watchity_interaction`).

The handlers are embedded shallowly: the relational store (tables for
`EventConfig`, `PollConfig`, `QuestionConfig`, `Poll`) is a structure of
lists, the external collaborators (the upstream watchit-identifier check
and the serializer validity predicates, which live outside the handler
file) are an `Env` of predicates, and each HTTP handler method of
`views.py` becomes a pure function from `Env`, store and request
arguments to a response together with the store after the call.
-/

/-- A poll configuration record (`PollConfig` model): primary key,
`enabled` flag, and the remaining poll-specific settings collapsed to an
opaque value. -/
structure PollConfig where
  id : Nat
  enabled : Bool
  settings : Nat
deriving Repr, DecidableEq

/-- A question configuration record (`QuestionConfig` model), symmetric to
`PollConfig`. -/
structure QuestionConfig where
  id : Nat
  enabled : Bool
  settings : Nat
deriving Repr, DecidableEq

/-- An `EventConfig` row: the event identifier (unique key) and the two
nullable foreign keys to the default poll / question configuration,
represented by the referenced primary key. -/
structure EventConfig where
  watchit_uuid : Nat
  default_polls_config : Option Nat
  default_questions_config : Option Nat
deriving Repr, DecidableEq

/-- A `Poll` row: integer primary key and opaque payload. -/
structure Poll where
  id : Nat
  payload : Nat
deriving Repr, DecidableEq

/-- The relational store backing the handlers: one list per table, plus
the next primary key handed out on insert. -/
structure Store where
  eventConfigs : List EventConfig
  pollConfigs : List PollConfig
  questionConfigs : List QuestionConfig
  polls : List Poll
  nextId : Nat
deriving Repr, DecidableEq

/-- A request body for a config create/update: the `enabled` boolean plus
the kind-specific settings collapsed to an opaque value (the spec fixes
only that configuration objects carry an `enabled` boolean and settings). -/
structure ConfigData where
  enabled : Bool
  settings : Nat
deriving Repr, DecidableEq

/-- Modelled from the spec: the external collaborators of the handlers,
which are not part of `views.py` — `services.check_watchit_uuid` (the
upstream identifier validator) and the serializer validity predicates
(`PollConfigModelSerializer.is_valid` etc.); each is an opaque predicate. -/
structure Env where
  knownWatchits : List Nat
  pollValid : ConfigData → Bool
  questionValid : ConfigData → Bool
  pollUpdateValid : ConfigData → Bool
  questionUpdateValid : ConfigData → Bool

/-- `services.check_watchit_uuid`: whether the upstream system recognizes
the event identifier. -/
def check_watchit_uuid (env : Env) (watchit_uuid : Nat) : Bool :=
  env.knownWatchits.contains watchit_uuid

/-- Response bodies the handlers produce: a serialized configuration, the
`{"enabled": b}` body of PATCH, a serialized poll, or the serializer's
field-level errors (opaque). -/
inductive RespBody where
  | configData (d : ConfigData)
  | enabledVal (b : Bool)
  | pollData (p : Poll)
  | fieldErrors
deriving Repr, DecidableEq

/-- Result of a handler call: a normal `Response(body, status)`, a raised
`ValidationError({field: message})`, or `storeFault` for a dangling
foreign key — a state the backing store's integrity constraints exclude
(unreachable from well-formed stores). -/
inductive HResult where
  | resp (status : Nat) (body : RespBody)
  | vError (field : String) (msg : String)
  | storeFault
deriving Repr, DecidableEq

/-- `EventConfig.objects.get(watchit_uuid=...)` as an `Option`. -/
def findEventConfig (st : Store) (watchit_uuid : Nat) : Option EventConfig :=
  st.eventConfigs.find? (fun e => e.watchit_uuid == watchit_uuid)

/-- `PollConfig.objects.get(pk=...)` as an `Option`. -/
def findPollConfig (st : Store) (pk : Nat) : Option PollConfig :=
  st.pollConfigs.find? (fun c => c.id == pk)

/-- `QuestionConfig.objects.get(pk=...)` as an `Option`. -/
def findQuestionConfig (st : Store) (pk : Nat) : Option QuestionConfig :=
  st.questionConfigs.find? (fun c => c.id == pk)

/-- `Poll.objects.get(pk=...)` as an `Option`. -/
def findPoll (st : Store) (pk : Nat) : Option Poll :=
  st.polls.find? (fun p => p.id == pk)

/-- `EventConfig.objects.get_or_create(watchit_uuid=...)`: return the
existing row, or insert a fresh one with both default references null. -/
def getOrCreateEventConfig (st : Store) (watchit_uuid : Nat) :
    EventConfig × Store :=
  match findEventConfig st watchit_uuid with
  | some ec => (ec, st)
  | none =>
    let ec : EventConfig := ⟨watchit_uuid, none, none⟩
    (ec, { st with eventConfigs := st.eventConfigs ++ [ec] })

/-- `event_config.save()`: write the row back, matched on its unique key. -/
def saveEventConfig (st : Store) (ec : EventConfig) : Store :=
  { st with
    eventConfigs :=
      st.eventConfigs.map
        (fun e => if e.watchit_uuid == ec.watchit_uuid then ec else e) }

/-- `poll_config.save()` for an existing row: write back, matched on pk. -/
def savePollConfig (st : Store) (pc : PollConfig) : Store :=
  { st with
    pollConfigs := st.pollConfigs.map (fun c => if c.id == pc.id then pc else c) }

/-- `question_config.save()` for an existing row. -/
def saveQuestionConfig (st : Store) (qc : QuestionConfig) : Store :=
  { st with
    questionConfigs :=
      st.questionConfigs.map (fun c => if c.id == qc.id then qc else c) }

/-- Modelled from the spec: `PollConfigModelSerializer.save()` on a valid
payload — "persist a new config record from the validated payload": insert
one fresh `PollConfig` row built from the payload, under the next free pk. -/
def insertPollConfig (st : Store) (d : ConfigData) : PollConfig × Store :=
  let pc : PollConfig := ⟨st.nextId, d.enabled, d.settings⟩
  (pc, { st with pollConfigs := st.pollConfigs ++ [pc], nextId := st.nextId + 1 })

/-- Modelled from the spec: `QuestionConfigModelSerializer.save()`,
symmetric to `insertPollConfig`. -/
def insertQuestionConfig (st : Store) (d : ConfigData) : QuestionConfig × Store :=
  let qc : QuestionConfig := ⟨st.nextId, d.enabled, d.settings⟩
  (qc,
   { st with questionConfigs := st.questionConfigs ++ [qc], nextId := st.nextId + 1 })

/-- `old_polls_config.delete()`: remove the row with that pk. -/
def deletePollConfig (st : Store) (pk : Nat) : Store :=
  { st with pollConfigs := st.pollConfigs.filter (fun c => !(c.id == pk)) }

/-- `old_question_config.delete()`: remove the row with that pk. -/
def deleteQuestionConfig (st : Store) (pk : Nat) : Store :=
  { st with questionConfigs := st.questionConfigs.filter (fun c => !(c.id == pk)) }

/-- The serialized representation of a `PollConfig`
(`PollConfigModelSerializer(instance).data`). -/
def PollConfig.data (pc : PollConfig) : ConfigData := ⟨pc.enabled, pc.settings⟩

/-- The serialized representation of a `QuestionConfig`. -/
def QuestionConfig.data (qc : QuestionConfig) : ConfigData := ⟨qc.enabled, qc.settings⟩

/-- `DefaultConfigPollManagerApiView.get` (views.py 61-70): validate the
watchit id, load the event config, and return the default poll config's
representation, or the `poll config not found` validation error. -/
def defaultPollGet (env : Env) (st : Store) (watchit_uuid : Nat) :
    HResult × Store :=
  if !check_watchit_uuid env watchit_uuid then
    (.vError "watchit_uuid" "watchit not found", st)
  else
    match findEventConfig st watchit_uuid with
    | none => (.vError "watchit_uuid" "event config not found", st)
    | some event_config =>
      match event_config.default_polls_config with
      | some pid =>
        match findPollConfig st pid with
        | some default_poll_config => (.resp 200 (.configData default_poll_config.data), st)
        | none => (.storeFault, st)
      | none => (.vError "watchit_uuid" "poll config not found", st)

/-- `DefaultConfigPollManagerApiView.post` (views.py 73-95): validate the
watchit id and the payload, get-or-create the event config, remember the
old default, insert the new config, link it, save, then delete the old
default if there was one. -/
def defaultPollPost (env : Env) (st : Store) (watchit_uuid : Nat)
    (data : ConfigData) : HResult × Store :=
  if !check_watchit_uuid env watchit_uuid then
    (.vError "watchit_uuid" "watchit not found", st)
  else
    if env.pollValid data then
      let (event_config, st1) := getOrCreateEventConfig st watchit_uuid
      let old_polls_config := event_config.default_polls_config
      let (new_polls_config, st2) := insertPollConfig st1 data
      let st3 :=
        saveEventConfig st2
          { event_config with default_polls_config := some new_polls_config.id }
      let st4 :=
        match old_polls_config with
        | some oldId => deletePollConfig st3 oldId
        | none => st3
      (.resp 201 (.configData data), st4)
    else
      (.resp 400 .fieldErrors, st)

/-- `DefaultConfigPollManagerApiView.patch` (views.py 97-111): validate the
watchit id, load the event config, flip the default poll config's
`enabled` flag, persist it and return `{"enabled": new}`, or raise the
`poll config not found` validation error. -/
def defaultPollPatch (env : Env) (st : Store) (watchit_uuid : Nat) :
    HResult × Store :=
  if !check_watchit_uuid env watchit_uuid then
    (.vError "watchit_uuid" "watchit not found", st)
  else
    match findEventConfig st watchit_uuid with
    | none => (.vError "watchit_uuid" "event config not found", st)
    | some event_config =>
      match event_config.default_polls_config with
      | some pid =>
        match findPollConfig st pid with
        | some default_polls_config =>
          let updated := { default_polls_config with enabled := !default_polls_config.enabled }
          (.resp 200 (.enabledVal updated.enabled), savePollConfig st updated)
        | none => (.storeFault, st)
      | none => (.vError "watchit_uuid" "poll config not found", st)

/-- `ConfigPollManagerApiView.get` (views.py 121-135): validate the
watchit id, load the poll config by its own pk, return its
representation or the `poll_configuration_id` not-found error. -/
def configPollGet (env : Env) (st : Store) (watchit_uuid : Nat)
    (poll_configuration_id : Nat) : HResult × Store :=
  if !check_watchit_uuid env watchit_uuid then
    (.vError "watchit_uuid" "watchit not found", st)
  else
    match findPollConfig st poll_configuration_id with
    | some poll_config => (.resp 200 (.configData poll_config.data), st)
    | none => (.vError "poll_configuration_id" "poll config not found", st)

/-- Modelled from the spec: `PollConfigUpdateModelSerializer.update`
("apply validated fields onto the existing record") — overwrite the
record's mutable fields with the payload, keeping its pk. -/
def updatePollConfig (pc : PollConfig) (d : ConfigData) : PollConfig :=
  { pc with enabled := d.enabled, settings := d.settings }

/-- Modelled from the spec: `QuestionUpdateModelSerializer.update`,
symmetric to `updatePollConfig`. -/
def updateQuestionConfig (qc : QuestionConfig) (d : ConfigData) : QuestionConfig :=
  { qc with enabled := d.enabled, settings := d.settings }

/-- `ConfigPollManagerApiView.put` (views.py 142-163): validate the
watchit id, load the poll config by pk (same not-found error as get),
validate the payload against the update schema (400 with field errors on
failure), apply the fields in place and return the updated
representation. -/
def configPollPut (env : Env) (st : Store) (watchit_uuid : Nat)
    (poll_configuration_id : Nat) (data : ConfigData) : HResult × Store :=
  if !check_watchit_uuid env watchit_uuid then
    (.vError "watchit_uuid" "watchit not found", st)
  else
    match findPollConfig st poll_configuration_id with
    | some poll_config =>
      if env.pollUpdateValid data then
        let updated := updatePollConfig poll_config data
        (.resp 200 (.configData updated.data), savePollConfig st updated)
      else
        (.resp 400 .fieldErrors, st)
    | none => (.vError "poll_configuration_id" "poll config not found", st)

/-- `PollManagerApiView.get` (views.py 284-298): validate the watchit id,
load the poll by pk, return its representation or the `poll_id`
not-found error. -/
def pollGet (env : Env) (st : Store) (watchit_uuid : Nat) (poll_id : Nat) :
    HResult × Store :=
  if !check_watchit_uuid env watchit_uuid then
    (.vError "watchit_uuid" "watchit not found", st)
  else
    match findPoll st poll_id with
    | some poll => (.resp 200 (.pollData poll), st)
    | none => (.vError "poll_id" "poll not found", st)

/-- `DefaultConfigQuestionManagerApiView.get` (views.py 173-182),
symmetric to `defaultPollGet`. -/
def defaultQuestionGet (env : Env) (st : Store) (watchit_uuid : Nat) :
    HResult × Store :=
  if !check_watchit_uuid env watchit_uuid then
    (.vError "watchit_uuid" "watchit not found", st)
  else
    match findEventConfig st watchit_uuid with
    | none => (.vError "watchit_uuid" "event config not found", st)
    | some event_config =>
      match event_config.default_questions_config with
      | some qid =>
        match findQuestionConfig st qid with
        | some default_question_config =>
          (.resp 200 (.configData default_question_config.data), st)
        | none => (.storeFault, st)
      | none => (.vError "watchit_uuid" "question config not found", st)

/-- `DefaultConfigQuestionManagerApiView.post` (views.py 185-207),
symmetric to `defaultPollPost`. -/
def defaultQuestionPost (env : Env) (st : Store) (watchit_uuid : Nat)
    (data : ConfigData) : HResult × Store :=
  if !check_watchit_uuid env watchit_uuid then
    (.vError "watchit_uuid" "watchit not found", st)
  else
    if env.questionValid data then
      let (event_config, st1) := getOrCreateEventConfig st watchit_uuid
      let old_question_config := event_config.default_questions_config
      let (new_question_config, st2) := insertQuestionConfig st1 data
      let st3 :=
        saveEventConfig st2
          { event_config with default_questions_config := some new_question_config.id }
      let st4 :=
        match old_question_config with
        | some oldId => deleteQuestionConfig st3 oldId
        | none => st3
      (.resp 201 (.configData data), st4)
    else
      (.resp 400 .fieldErrors, st)

/-- `DefaultConfigQuestionManagerApiView.patch` (views.py 209-223),
symmetric to `defaultPollPatch`. -/
def defaultQuestionPatch (env : Env) (st : Store) (watchit_uuid : Nat) :
    HResult × Store :=
  if !check_watchit_uuid env watchit_uuid then
    (.vError "watchit_uuid" "watchit not found", st)
  else
    match findEventConfig st watchit_uuid with
    | none => (.vError "watchit_uuid" "event config not found", st)
    | some event_config =>
      match event_config.default_questions_config with
      | some qid =>
        match findQuestionConfig st qid with
        | some default_question_config =>
          let updated :=
            { default_question_config with enabled := !default_question_config.enabled }
          (.resp 200 (.enabledVal updated.enabled), saveQuestionConfig st updated)
        | none => (.storeFault, st)
      | none => (.vError "watchit_uuid" "question config not found", st)

/-- `ConfigQuestionManagerApiView.get` (views.py 233-248), symmetric to
`configPollGet`. -/
def configQuestionGet (env : Env) (st : Store) (watchit_uuid : Nat)
    (question_configuration_id : Nat) : HResult × Store :=
  if !check_watchit_uuid env watchit_uuid then
    (.vError "watchit_uuid" "watchit not found", st)
  else
    match findQuestionConfig st question_configuration_id with
    | some question_config => (.resp 200 (.configData question_config.data), st)
    | none => (.vError "question_configuration_id" "question config not found", st)

/-- `ConfigQuestionManagerApiView.put` (views.py 252-273), symmetric to
`configPollPut`. -/
def configQuestionPut (env : Env) (st : Store) (watchit_uuid : Nat)
    (question_configuration_id : Nat) (data : ConfigData) : HResult × Store :=
  if !check_watchit_uuid env watchit_uuid then
    (.vError "watchit_uuid" "watchit not found", st)
  else
    match findQuestionConfig st question_configuration_id with
    | some question_config =>
      if env.questionUpdateValid data then
        let updated := updateQuestionConfig question_config data
        (.resp 200 (.configData updated.data), saveQuestionConfig st updated)
      else
        (.resp 400 .fieldErrors, st)
    | none => (.vError "question_configuration_id" "question config not found", st)

/-- Well-formedness of a store, guaranteed by the backing database: every
primary key already handed out is below `nextId`, and both default
references of every `EventConfig` point at existing rows (referential
integrity of the foreign keys). -/
def Store.WF (st : Store) : Prop :=
  (∀ pc ∈ st.pollConfigs, pc.id < st.nextId) ∧
  (∀ qc ∈ st.questionConfigs, qc.id < st.nextId) ∧
  (∀ ec ∈ st.eventConfigs, ∀ pid, ec.default_polls_config = some pid →
    ∃ pc ∈ st.pollConfigs, pc.id = pid) ∧
  (∀ ec ∈ st.eventConfigs, ∀ qid, ec.default_questions_config = some qid →
    ∃ qc ∈ st.questionConfigs, qc.id = qid)

/-- A sample environment for concrete instantiations: the upstream system
knows exactly the identifier `1`, and every serializer accepts every
payload. -/
def envA : Env :=
  ⟨[1], fun _ => true, fun _ => true, fun _ => true, fun _ => true⟩

/-- A sample environment whose create serializers reject every payload. -/
def envB : Env :=
  ⟨[1], fun _ => false, fun _ => false, fun _ => false, fun _ => false⟩

/-- The empty store. -/
def stEmpty : Store := ⟨[], [], [], [], 0⟩

/-- A store holding one `EventConfig` for event `1` with no default
configuration of either kind. -/
def stBare : Store := ⟨[⟨1, none, none⟩], [], [], [], 0⟩

/-- C1: for every operation (default-config GET/POST/PATCH, per-resource
GET/PUT, poll GET, and the question-side counterparts) and every event
identifier the external system does not recognize, the handler returns
the validation error `{watchit_uuid: "watchit not found"}` and leaves the
store untouched, regardless of payload and other path parameters — the
identifier check runs before any other step. -/
theorem unknown_watchit_rejected_first (env : Env) (st : Store) (u : Nat)
    (h : check_watchit_uuid env u = false) :
    (defaultPollGet env st u = (.vError "watchit_uuid" "watchit not found", st)) ∧
    (∀ data, defaultPollPost env st u data =
      (.vError "watchit_uuid" "watchit not found", st)) ∧
    (defaultPollPatch env st u = (.vError "watchit_uuid" "watchit not found", st)) ∧
    (∀ pid, configPollGet env st u pid =
      (.vError "watchit_uuid" "watchit not found", st)) ∧
    (∀ pid data, configPollPut env st u pid data =
      (.vError "watchit_uuid" "watchit not found", st)) ∧
    (defaultQuestionGet env st u = (.vError "watchit_uuid" "watchit not found", st)) ∧
    (∀ data, defaultQuestionPost env st u data =
      (.vError "watchit_uuid" "watchit not found", st)) ∧
    (defaultQuestionPatch env st u =
      (.vError "watchit_uuid" "watchit not found", st)) ∧
    (∀ qid, configQuestionGet env st u qid =
      (.vError "watchit_uuid" "watchit not found", st)) ∧
    (∀ qid data, configQuestionPut env st u qid data =
      (.vError "watchit_uuid" "watchit not found", st)) ∧
    (∀ poll_id, pollGet env st u poll_id =
      (.vError "watchit_uuid" "watchit not found", st)) := by
  refine ⟨?_, ?_, ?_, ?_, ?_, ?_, ?_, ?_, ?_, ?_, ?_⟩ <;>
    simp [defaultPollGet, defaultPollPost, defaultPollPatch, configPollGet,
      configPollPut, defaultQuestionGet, defaultQuestionPost,
      defaultQuestionPatch, configQuestionGet, configQuestionPut, pollGet, h]

/-- Witness for C1 at the concrete identifier `0`, unknown to `envA`. -/
theorem unknown_watchit_rejected_first_witness :
    check_watchit_uuid envA 0 = false ∧
    defaultPollPost envA stEmpty 0 ⟨true, 5⟩ =
      (.vError "watchit_uuid" "watchit not found", stEmpty) :=
  ⟨by decide, (unknown_watchit_rejected_first envA stEmpty 0 (by decide)).2.1 ⟨true, 5⟩⟩

/-- C10: with a recognized identifier but a payload the kind's serializer
rejects, default-config POST returns 400 with the serializer's field
errors and the store is completely unchanged — no `EventConfig` is
created and nothing else is touched. -/
theorem invalid_payload_post_unchanged (env : Env) (st : Store) (u : Nat)
    (data : ConfigData) (h : check_watchit_uuid env u = true) :
    (env.pollValid data = false →
      defaultPollPost env st u data = (.resp 400 .fieldErrors, st)) ∧
    (env.questionValid data = false →
      defaultQuestionPost env st u data = (.resp 400 .fieldErrors, st)) := by
  constructor <;> intro hv <;>
    simp [defaultPollPost, defaultQuestionPost, h, hv]

/-- Witness for C10: `envB` rejects every payload; event `1` is known. -/
theorem invalid_payload_post_unchanged_witness :
    check_watchit_uuid envB 1 = true ∧ envB.pollValid ⟨true, 5⟩ = false ∧
    defaultPollPost envB stEmpty 1 ⟨true, 5⟩ = (.resp 400 .fieldErrors, stEmpty) :=
  ⟨by decide, rfl,
    (invalid_payload_post_unchanged envB stEmpty 1 ⟨true, 5⟩ (by decide)).1 rfl⟩

/-- C6: PATCH on a recognized event whose `EventConfig` exists but has no
default reference of the requested kind raises the validation error
`{watchit_uuid: "<kind> config not found"}` and the store is unchanged:
nothing is created, modified or deleted. -/
theorem patch_no_default_error (env : Env) (st : Store) (u : Nat)
    (ec : EventConfig) (h : check_watchit_uuid env u = true)
    (hfind : findEventConfig st u = some ec) :
    (ec.default_polls_config = none →
      defaultPollPatch env st u = (.vError "watchit_uuid" "poll config not found", st)) ∧
    (ec.default_questions_config = none →
      defaultQuestionPatch env st u =
        (.vError "watchit_uuid" "question config not found", st)) := by
  constructor <;> intro hnone <;>
    simp [defaultPollPatch, defaultQuestionPatch, h, hfind, hnone]

/-- Witness for C6: `stBare` holds the `EventConfig` for event `1` with
both default references null. -/
theorem patch_no_default_error_witness :
    check_watchit_uuid envA 1 = true ∧
    findEventConfig stBare 1 = some ⟨1, none, none⟩ ∧
    defaultPollPatch envA stBare 1 =
      (.vError "watchit_uuid" "poll config not found", stBare) :=
  ⟨by decide, by decide,
    (patch_no_default_error envA stBare 1 ⟨1, none, none⟩ (by decide) (by decide)).1 rfl⟩

/-- Mapping a replace-if function over a list with no matching element
leaves the list unchanged. -/
theorem map_replace_of_no_match {α : Type} (q : α → Prop) [DecidablePred q]
    (b : α) (l : List α) (h : ∀ a ∈ l, ¬q a) :
    l.map (fun a => if q a then b else a) = l := by
  induction l with
  | nil => rfl
  | cons a t ih =>
    simp only [List.map_cons, if_neg (h a (List.mem_cons_self a t))]
    exact congrArg (List.cons a) (ih fun x hx => h x (List.mem_cons_of_mem a hx))

/-- After replacing every matching element of a list by `b` (itself
matching), `find?` returns `b` provided the original list had a match. -/
theorem find?_map_replace {α : Type} (p : α → Bool) (b : α) (hb : p b = true)
    (l : List α) (x : α) (hx : l.find? p = some x) :
    (l.map (fun a => if p a then b else a)).find? p = some b := by
  induction l with
  | nil => simp [List.find?] at hx
  | cons a t ih =>
    by_cases ha : p a = true
    · simp only [List.map_cons, if_pos ha]
      exact List.find?_cons_of_pos _ hb
    · rw [List.find?_cons_of_neg _ ha] at hx
      simp only [List.map_cons, if_neg ha]
      rw [List.find?_cons_of_neg _ ha]
      exact ih hx

/-- C7 counterexample: the claim as stated is false on the default-config
path. With event `1` recognized and its `EventConfig` holding no default
poll config, the default-config GET fails to find the requested
configuration yet raises the error under field `watchit_uuid`, not
`poll_configuration_id`. -/
theorem get_not_found_field_counterexample :
    defaultPollGet envA stBare 1 =
      (.vError "watchit_uuid" "poll config not found", stBare) ∧
    "watchit_uuid" ≠ "poll_configuration_id" := by
  constructor
  · rfl
  · decide

/-- C7 amended: a per-resource GET on a missing configuration id returns
the validation error under field `<kind>_configuration_id` with message
`<kind> config not found`; the default-config GET, whose only path
parameter is the event id, reports a missing default under field
`watchit_uuid` with the same `<kind> config not found` message. -/
theorem get_not_found_errors (env : Env) (st : Store) (u : Nat)
    (h : check_watchit_uuid env u = true) :
    (∀ pid, findPollConfig st pid = none →
      configPollGet env st u pid =
        (.vError "poll_configuration_id" "poll config not found", st)) ∧
    (∀ qid, findQuestionConfig st qid = none →
      configQuestionGet env st u qid =
        (.vError "question_configuration_id" "question config not found", st)) ∧
    (∀ ec, findEventConfig st u = some ec → ec.default_polls_config = none →
      defaultPollGet env st u =
        (.vError "watchit_uuid" "poll config not found", st)) ∧
    (∀ ec, findEventConfig st u = some ec → ec.default_questions_config = none →
      defaultQuestionGet env st u =
        (.vError "watchit_uuid" "question config not found", st)) := by
  refine ⟨fun pid hpid => ?_, fun qid hqid => ?_,
    fun ec hec hnone => ?_, fun ec hec hnone => ?_⟩ <;>
    simp [configPollGet, configQuestionGet, defaultPollGet, defaultQuestionGet,
      h, *]

/-- Witness for the amended C7 at concrete inputs. -/
theorem get_not_found_errors_witness :
    check_watchit_uuid envA 1 = true ∧
    findPollConfig stEmpty 7 = none ∧
    configPollGet envA stEmpty 1 7 =
      (.vError "poll_configuration_id" "poll config not found", stEmpty) :=
  ⟨by decide, rfl, (get_not_found_errors envA stEmpty 1 (by decide)).1 7 rfl⟩

/-- C2: POST of a default config for a recognized event with no prior
`EventConfig`, with a payload the serializer accepts, inserts exactly one
new `EventConfig` (keyed by the event, its other default reference null)
and exactly one new config record of the kind, links the former to the
latter, deletes nothing, and returns 201 with the new configuration's
data. The resulting store is given in full, so no other row changes. -/
theorem post_first_config_creates (env : Env) (st : Store) (u : Nat)
    (data : ConfigData) (h : check_watchit_uuid env u = true)
    (hec : findEventConfig st u = none) :
    (env.pollValid data = true →
      defaultPollPost env st u data =
        (.resp 201 (.configData data),
         { st with
           eventConfigs := st.eventConfigs ++ [⟨u, some st.nextId, none⟩],
           pollConfigs := st.pollConfigs ++ [⟨st.nextId, data.enabled, data.settings⟩],
           nextId := st.nextId + 1 })) ∧
    (env.questionValid data = true →
      defaultQuestionPost env st u data =
        (.resp 201 (.configData data),
         { st with
           eventConfigs := st.eventConfigs ++ [⟨u, none, some st.nextId⟩],
           questionConfigs :=
             st.questionConfigs ++ [⟨st.nextId, data.enabled, data.settings⟩],
           nextId := st.nextId + 1 })) := by
  have hall : ∀ e ∈ st.eventConfigs, (e.watchit_uuid == u) = false := by
    intro e he
    have := List.find?_eq_none.mp hec e he
    simpa using this
  constructor <;> intro hv
  all_goals
    simp [defaultPollPost, defaultQuestionPost, h, hv, getOrCreateEventConfig,
      hec, insertPollConfig, insertQuestionConfig, saveEventConfig]
  all_goals
    exact map_replace_of_no_match _ _ _ fun e he => by simpa using hall e he

/-- Witness for C2: first POST for event `1` on the empty store. -/
theorem post_first_config_creates_witness :
    check_watchit_uuid envA 1 = true ∧ findEventConfig stEmpty 1 = none ∧
    defaultPollPost envA stEmpty 1 ⟨true, 5⟩ =
      (.resp 201 (.configData ⟨true, 5⟩),
       { stEmpty with
         eventConfigs := stEmpty.eventConfigs ++ [⟨1, some stEmpty.nextId, none⟩],
         pollConfigs := stEmpty.pollConfigs ++ [⟨stEmpty.nextId, true, 5⟩],
         nextId := stEmpty.nextId + 1 }) :=
  ⟨by decide, rfl,
    (post_first_config_creates envA stEmpty 1 ⟨true, 5⟩ (by decide) rfl).1 rfl⟩

/-- C3: POST of a new default config for a recognized event whose
`EventConfig` already references a default of that kind links the event to
the newly created record, the previously linked record no longer exists in
the store, and the new record does — no orphaned previous default
survives a replace. -/
theorem post_replace_deletes_old (env : Env) (st : Store) (u : Nat)
    (data : ConfigData) (ec : EventConfig) (oldId : Nat)
    (hWF : st.WF) (h : check_watchit_uuid env u = true)
    (hec : findEventConfig st u = some ec) :
    (env.pollValid data = true → ec.default_polls_config = some oldId →
      (defaultPollPost env st u data).1 = .resp 201 (.configData data) ∧
      findEventConfig (defaultPollPost env st u data).2 u =
        some { ec with default_polls_config := some st.nextId } ∧
      (∀ pc ∈ (defaultPollPost env st u data).2.pollConfigs, pc.id ≠ oldId) ∧
      (⟨st.nextId, data.enabled, data.settings⟩ : PollConfig) ∈
        (defaultPollPost env st u data).2.pollConfigs) ∧
    (env.questionValid data = true → ec.default_questions_config = some oldId →
      (defaultQuestionPost env st u data).1 = .resp 201 (.configData data) ∧
      findEventConfig (defaultQuestionPost env st u data).2 u =
        some { ec with default_questions_config := some st.nextId } ∧
      (∀ qc ∈ (defaultQuestionPost env st u data).2.questionConfigs, qc.id ≠ oldId) ∧
      (⟨st.nextId, data.enabled, data.settings⟩ : QuestionConfig) ∈
        (defaultQuestionPost env st u data).2.questionConfigs) := by
  have hec' : st.eventConfigs.find? (fun e => e.watchit_uuid == u) = some ec := hec
  have hmem : ec ∈ st.eventConfigs := List.mem_of_find?_eq_some hec'
  have hbeq := List.find?_some hec'
  have hequ : ec.watchit_uuid = u := by simpa using hbeq
  constructor
  · intro hv hold
    have hlt : oldId < st.nextId := by
      obtain ⟨pc, hpc, hpcid⟩ := hWF.2.2.1 ec hmem oldId hold
      exact hpcid ▸ hWF.1 pc hpc
    have hne : st.nextId ≠ oldId := Nat.ne_of_gt hlt
    refine ⟨?_, ?_, ?_, ?_⟩
    · simp [defaultPollPost, h, hv, getOrCreateEventConfig, hec,
        insertPollConfig, saveEventConfig, deletePollConfig, hold]
    · simp only [defaultPollPost, h, hv, getOrCreateEventConfig, hec,
        insertPollConfig, saveEventConfig, deletePollConfig, hold, hec',
        Bool.not_true, Bool.false_eq_true, if_false, if_true, findEventConfig]
      rw [hequ]
      exact find?_map_replace (fun e => e.watchit_uuid == u)
        ⟨u, some st.nextId, ec.default_questions_config⟩ (by simp)
        st.eventConfigs ec hec'
    · simp only [defaultPollPost, h, hv, getOrCreateEventConfig, hec,
        insertPollConfig, saveEventConfig, deletePollConfig, hold,
        Bool.not_true, Bool.false_eq_true, if_false, if_true]
      intro pc hpc
      have := (List.mem_filter.mp hpc).2
      simpa using this
    · simp only [defaultPollPost, h, hv, getOrCreateEventConfig, hec,
        insertPollConfig, saveEventConfig, deletePollConfig, hold,
        Bool.not_true, Bool.false_eq_true, if_false, if_true]
      refine List.mem_filter.mpr ⟨List.mem_append_right _ ?_, by simp [hne]⟩
      simp
  · intro hv hold
    have hlt : oldId < st.nextId := by
      obtain ⟨qc, hqc, hqcid⟩ := hWF.2.2.2 ec hmem oldId hold
      exact hqcid ▸ hWF.2.1 qc hqc
    have hne : st.nextId ≠ oldId := Nat.ne_of_gt hlt
    refine ⟨?_, ?_, ?_, ?_⟩
    · simp [defaultQuestionPost, h, hv, getOrCreateEventConfig, hec,
        insertQuestionConfig, saveEventConfig, deleteQuestionConfig, hold]
    · simp only [defaultQuestionPost, h, hv, getOrCreateEventConfig, hec,
        insertQuestionConfig, saveEventConfig, deleteQuestionConfig, hold, hec',
        Bool.not_true, Bool.false_eq_true, if_false, if_true, findEventConfig]
      rw [hequ]
      exact find?_map_replace (fun e => e.watchit_uuid == u)
        ⟨u, ec.default_polls_config, some st.nextId⟩ (by simp)
        st.eventConfigs ec hec'
    · simp only [defaultQuestionPost, h, hv, getOrCreateEventConfig, hec,
        insertQuestionConfig, saveEventConfig, deleteQuestionConfig, hold,
        Bool.not_true, Bool.false_eq_true, if_false, if_true]
      intro qc hqc
      have := (List.mem_filter.mp hqc).2
      simpa using this
    · simp only [defaultQuestionPost, h, hv, getOrCreateEventConfig, hec,
        insertQuestionConfig, saveEventConfig, deleteQuestionConfig, hold,
        Bool.not_true, Bool.false_eq_true, if_false, if_true]
      refine List.mem_filter.mpr ⟨List.mem_append_right _ ?_, by simp [hne]⟩
      simp

/-- A well-formed store: event `1` has a default poll config with pk `0`. -/
def stOne : Store := ⟨[⟨1, some 0, none⟩], [⟨0, true, 5⟩], [], [], 1⟩

/-- Witness for C3: replacing event `1`'s default poll config in `stOne`
removes record `0` from the poll-config table. -/
theorem post_replace_deletes_old_witness :
    stOne.WF ∧ check_watchit_uuid envA 1 = true ∧
    findEventConfig stOne 1 = some ⟨1, some 0, none⟩ ∧
    (∀ pc ∈ (defaultPollPost envA stOne 1 ⟨false, 9⟩).2.pollConfigs, pc.id ≠ 0) :=
  ⟨by unfold Store.WF; decide, by decide, rfl,
    ((post_replace_deletes_old envA stOne 1 ⟨false, 9⟩ ⟨1, some 0, none⟩ 0
        (by unfold Store.WF; decide) (by decide) rfl).1 rfl rfl).2.2.1⟩

/-- The intermediate stores of `DefaultConfigPollManagerApiView.post` on
the success path, in the order the code produces them: after
`get_or_create`, after `serializer.save()`, after
`event_config.save()` (the new record is linked), and after the delete of
the old record. -/
def defaultPollPostSteps (st : Store) (u : Nat) (data : ConfigData) :
    List Store :=
  let p := getOrCreateEventConfig st u
  let event_config := p.1
  let st1 := p.2
  let old_polls_config := event_config.default_polls_config
  let q := insertPollConfig st1 data
  let new_polls_config := q.1
  let st2 := q.2
  let st3 :=
    saveEventConfig st2
      { event_config with default_polls_config := some new_polls_config.id }
  let st4 :=
    match old_polls_config with
    | some oldId => deletePollConfig st3 oldId
    | none => st3
  [st1, st2, st3, st4]

/-- The event has a default poll config: some `EventConfig` row carries
its identifier and references an existing `PollConfig` row. -/
def hasDefaultPoll (st : Store) (u : Nat) : Prop :=
  ∃ ec ∈ st.eventConfigs, ec.watchit_uuid = u ∧
    ∃ pid, ec.default_polls_config = some pid ∧
      ∃ pc ∈ st.pollConfigs, pc.id = pid

/-- C4: on the success path the create-or-replace POST walks exactly the
intermediate states of `defaultPollPostSteps` — capture old, create new,
link and save, only then delete — its final store is the last of them,
and from the moment the new record is linked (the third step) every
remaining intermediate state has a default poll config for the event, so
no failure after the link leaves the event without a default. -/
theorem post_ordering_never_unlinked (env : Env) (st : Store) (u : Nat)
    (data : ConfigData) (hWF : st.WF) (h : check_watchit_uuid env u = true)
    (hv : env.pollValid data = true) :
    (defaultPollPost env st u data).2 = (defaultPollPostSteps st u data).getLastD st ∧
    ∀ s ∈ (defaultPollPostSteps st u data).drop 2, hasDefaultPoll s u := by
  cases hfind : findEventConfig st u with
  | none =>
    constructor
    · simp [defaultPollPost, defaultPollPostSteps, h, hv,
        getOrCreateEventConfig, hfind, insertPollConfig, saveEventConfig,
        List.getLastD]
    · unfold hasDefaultPoll
      intro s hs
      have hdrop : (defaultPollPostSteps st u data).drop 2 =
          [{ st with
             eventConfigs :=
               (st.eventConfigs ++ [(⟨u, none, none⟩ : EventConfig)]).map
                 (fun e => if e.watchit_uuid == u then
                   (⟨u, some st.nextId, none⟩ : EventConfig) else e),
             pollConfigs :=
               st.pollConfigs ++ [⟨st.nextId, data.enabled, data.settings⟩],
             nextId := st.nextId + 1 },
           { st with
             eventConfigs :=
               (st.eventConfigs ++ [(⟨u, none, none⟩ : EventConfig)]).map
                 (fun e => if e.watchit_uuid == u then
                   (⟨u, some st.nextId, none⟩ : EventConfig) else e),
             pollConfigs :=
               st.pollConfigs ++ [⟨st.nextId, data.enabled, data.settings⟩],
             nextId := st.nextId + 1 }] := by
        simp [defaultPollPostSteps, getOrCreateEventConfig, hfind,
          insertPollConfig, saveEventConfig]
      rw [hdrop] at hs
      simp only [List.mem_cons, List.not_mem_nil, or_false] at hs
      have hmem0 : (⟨u, none, none⟩ : EventConfig) ∈
          st.eventConfigs ++ [⟨u, none, none⟩] :=
        List.mem_append_right _ (by simp)
      have hmemEc : (⟨u, some st.nextId, none⟩ : EventConfig) ∈
          (st.eventConfigs ++ [(⟨u, none, none⟩ : EventConfig)]).map
            (fun e => if e.watchit_uuid == u then
              (⟨u, some st.nextId, none⟩ : EventConfig) else e) := by
        simp
      rcases hs with rfl | rfl <;>
        exact ⟨⟨u, some st.nextId, none⟩, hmemEc, rfl, st.nextId, rfl,
          ⟨st.nextId, data.enabled, data.settings⟩,
          List.mem_append_right _ (by simp), rfl⟩
  | some ec =>
    have hfind' :
        st.eventConfigs.find? (fun e => e.watchit_uuid == u) = some ec := hfind
    have hmem : ec ∈ st.eventConfigs := List.mem_of_find?_eq_some hfind'
    have hbeq := List.find?_some hfind'
    have hequ : ec.watchit_uuid = u := by simpa using hbeq
    have hmemEc : { ec with default_polls_config := some st.nextId } ∈
        st.eventConfigs.map
          (fun e => if e.watchit_uuid == ec.watchit_uuid then
            { ec with default_polls_config := some st.nextId } else e) := by
      have := List.mem_map_of_mem
        (fun e => if e.watchit_uuid == ec.watchit_uuid then
          { ec with default_polls_config := some st.nextId } else e) hmem
      simpa using this
    cases hold : ec.default_polls_config with
    | none =>
      constructor
      · simp [defaultPollPost, defaultPollPostSteps, h, hv,
          getOrCreateEventConfig, hfind, hold, insertPollConfig,
          saveEventConfig, List.getLastD]
      · unfold hasDefaultPoll
        intro s hs
        have hdrop : (defaultPollPostSteps st u data).drop 2 =
            [{ st with
               eventConfigs :=
                 st.eventConfigs.map
                   (fun e => if e.watchit_uuid == ec.watchit_uuid then
                     { ec with default_polls_config := some st.nextId } else e),
               pollConfigs :=
                 st.pollConfigs ++ [⟨st.nextId, data.enabled, data.settings⟩],
               nextId := st.nextId + 1 },
             { st with
               eventConfigs :=
                 st.eventConfigs.map
                   (fun e => if e.watchit_uuid == ec.watchit_uuid then
                     { ec with default_polls_config := some st.nextId } else e),
               pollConfigs :=
                 st.pollConfigs ++ [⟨st.nextId, data.enabled, data.settings⟩],
               nextId := st.nextId + 1 }] := by
          simp [defaultPollPostSteps, getOrCreateEventConfig, hfind, hold,
            insertPollConfig, saveEventConfig]
        rw [hdrop] at hs
        simp only [List.mem_cons, List.not_mem_nil, or_false] at hs
        rcases hs with rfl | rfl <;>
          exact ⟨{ ec with default_polls_config := some st.nextId }, hmemEc,
            hequ, st.nextId, rfl,
            ⟨st.nextId, data.enabled, data.settings⟩,
            List.mem_append_right _ (by simp), rfl⟩
    | some oldId =>
      have hlt : oldId < st.nextId := by
        obtain ⟨pc, hpc, hpcid⟩ := hWF.2.2.1 ec hmem oldId hold
        exact hpcid ▸ hWF.1 pc hpc
      have hne : st.nextId ≠ oldId := Nat.ne_of_gt hlt
      constructor
      · simp [defaultPollPost, defaultPollPostSteps, h, hv,
          getOrCreateEventConfig, hfind, hold, insertPollConfig,
          saveEventConfig, deletePollConfig, List.getLastD]
      · unfold hasDefaultPoll
        intro s hs
        have hdrop : (defaultPollPostSteps st u data).drop 2 =
            [{ st with
               eventConfigs :=
                 st.eventConfigs.map
                   (fun e => if e.watchit_uuid == ec.watchit_uuid then
                     { ec with default_polls_config := some st.nextId } else e),
               pollConfigs :=
                 st.pollConfigs ++ [⟨st.nextId, data.enabled, data.settings⟩],
               nextId := st.nextId + 1 },
             { st with
               eventConfigs :=
                 st.eventConfigs.map
                   (fun e => if e.watchit_uuid == ec.watchit_uuid then
                     { ec with default_polls_config := some st.nextId } else e),
               pollConfigs :=
                 (st.pollConfigs ++
                   [(⟨st.nextId, data.enabled, data.settings⟩ : PollConfig)]).filter
                     (fun c => !(c.id == oldId)),
               nextId := st.nextId + 1 }] := by
          simp [defaultPollPostSteps, getOrCreateEventConfig, hfind, hold,
            insertPollConfig, saveEventConfig, deletePollConfig]
        rw [hdrop] at hs
        simp only [List.mem_cons, List.not_mem_nil, or_false] at hs
        rcases hs with rfl | rfl
        · exact ⟨{ ec with default_polls_config := some st.nextId }, hmemEc,
            hequ, st.nextId, rfl,
            ⟨st.nextId, data.enabled, data.settings⟩,
            List.mem_append_right _ (by simp), rfl⟩
        · exact ⟨{ ec with default_polls_config := some st.nextId }, hmemEc,
            hequ, st.nextId, rfl,
            ⟨st.nextId, data.enabled, data.settings⟩,
            List.mem_filter.mpr
              ⟨List.mem_append_right _ (by simp), by simp [hne]⟩, rfl⟩

/-- Witness for C4: the success-path trace on `stOne`. -/
theorem post_ordering_never_unlinked_witness :
    stOne.WF ∧ check_watchit_uuid envA 1 = true ∧
    envA.pollValid ⟨false, 9⟩ = true ∧
    ∀ s ∈ (defaultPollPostSteps stOne 1 ⟨false, 9⟩).drop 2, hasDefaultPoll s 1 :=
  ⟨by unfold Store.WF; decide, by decide, rfl,
    (post_ordering_never_unlinked envA stOne 1 ⟨false, 9⟩
      (by unfold Store.WF; decide) (by decide) rfl).2⟩

/-- Writing a record back under the pk of an existing record makes the
lookup of that pk return the written record. -/
theorem findPollConfig_save (st : Store) (pid : Nat) (pc new : PollConfig)
    (hpc : findPollConfig st pid = some pc) (hid : new.id = pc.id) :
    findPollConfig (savePollConfig st new) pid = some new := by
  have hpc' : st.pollConfigs.find? (fun c => c.id == pid) = some pc := hpc
  have hpcid := List.find?_some hpc'
  have hpid : pc.id = pid := by simpa using hpcid
  show (st.pollConfigs.map (fun c => if c.id == new.id then new else c)).find?
      (fun c => c.id == pid) = some new
  rw [hid, hpid]
  exact find?_map_replace (fun c => c.id == pid) new (by simp [hid, hpid])
    st.pollConfigs pc hpc'

/-- Question-side counterpart of `findPollConfig_save`. -/
theorem findQuestionConfig_save (st : Store) (qid : Nat)
    (qc new : QuestionConfig) (hqc : findQuestionConfig st qid = some qc)
    (hid : new.id = qc.id) :
    findQuestionConfig (saveQuestionConfig st new) qid = some new := by
  have hqc' : st.questionConfigs.find? (fun c => c.id == qid) = some qc := hqc
  have hqcid := List.find?_some hqc'
  have hqid : qc.id = qid := by simpa using hqcid
  show (st.questionConfigs.map (fun c => if c.id == new.id then new else c)).find?
      (fun c => c.id == qid) = some new
  rw [hid, hqid]
  exact find?_map_replace (fun c => c.id == qid) new (by simp [hid, hqid])
    st.questionConfigs qc hqc'

/-- C5: PATCH on an event whose `EventConfig` references a default config
of the kind with enabled flag `b` persists the record with flag `not b`
and returns 200 with body `{"enabled": not b}`; a second PATCH returns
`{"enabled": b}` and restores the stored record to its original value —
the toggle is an involution. -/
theorem patch_toggle_involution (env : Env) (st : Store) (u : Nat)
    (h : check_watchit_uuid env u = true) :
    (∀ ec pid pc, findEventConfig st u = some ec →
      ec.default_polls_config = some pid → findPollConfig st pid = some pc →
      defaultPollPatch env st u =
        (.resp 200 (.enabledVal (!pc.enabled)),
         savePollConfig st { pc with enabled := !pc.enabled }) ∧
      (defaultPollPatch env (defaultPollPatch env st u).2 u).1 =
        .resp 200 (.enabledVal pc.enabled) ∧
      findPollConfig (defaultPollPatch env (defaultPollPatch env st u).2 u).2 pid =
        some pc) ∧
    (∀ ec qid qc, findEventConfig st u = some ec →
      ec.default_questions_config = some qid →
      findQuestionConfig st qid = some qc →
      defaultQuestionPatch env st u =
        (.resp 200 (.enabledVal (!qc.enabled)),
         saveQuestionConfig st { qc with enabled := !qc.enabled }) ∧
      (defaultQuestionPatch env (defaultQuestionPatch env st u).2 u).1 =
        .resp 200 (.enabledVal qc.enabled) ∧
      findQuestionConfig
        (defaultQuestionPatch env (defaultQuestionPatch env st u).2 u).2 qid =
        some qc) := by
  constructor
  · intro ec pid pc hec hpid hpc
    have hfirst : defaultPollPatch env st u =
        (.resp 200 (.enabledVal (!pc.enabled)),
         savePollConfig st { pc with enabled := !pc.enabled }) := by
      simp [defaultPollPatch, h, hec, hpid, hpc]
    have hec2 : findEventConfig
        (savePollConfig st { pc with enabled := !pc.enabled }) u = some ec := hec
    have hfind2 : findPollConfig
        (savePollConfig st { pc with enabled := !pc.enabled }) pid =
        some { pc with enabled := !pc.enabled } :=
      findPollConfig_save st pid pc _ hpc rfl
    have hpcback : ({ pc with enabled := !(!pc.enabled) } : PollConfig) = pc := by
      cases pc
      simp
    refine ⟨hfirst, ?_, ?_⟩
    · rw [hfirst]
      simp [defaultPollPatch, h, hec2, hpid, hfind2]
    · rw [hfirst]
      have hsecond : defaultPollPatch env
          (savePollConfig st { pc with enabled := !pc.enabled }) u =
          (.resp 200 (.enabledVal (!(!pc.enabled))),
           savePollConfig (savePollConfig st { pc with enabled := !pc.enabled })
             { pc with enabled := !(!pc.enabled) }) := by
        simp [defaultPollPatch, h, hec2, hpid, hfind2]
      rw [hsecond, hpcback]
      exact findPollConfig_save _ pid { pc with enabled := !pc.enabled } pc
        hfind2 rfl
  · intro ec qid qc hec hqid hqc
    have hfirst : defaultQuestionPatch env st u =
        (.resp 200 (.enabledVal (!qc.enabled)),
         saveQuestionConfig st { qc with enabled := !qc.enabled }) := by
      simp [defaultQuestionPatch, h, hec, hqid, hqc]
    have hec2 : findEventConfig
        (saveQuestionConfig st { qc with enabled := !qc.enabled }) u = some ec := hec
    have hfind2 : findQuestionConfig
        (saveQuestionConfig st { qc with enabled := !qc.enabled }) qid =
        some { qc with enabled := !qc.enabled } :=
      findQuestionConfig_save st qid qc _ hqc rfl
    have hqcback : ({ qc with enabled := !(!qc.enabled) } : QuestionConfig) = qc := by
      cases qc
      simp
    refine ⟨hfirst, ?_, ?_⟩
    · rw [hfirst]
      simp [defaultQuestionPatch, h, hec2, hqid, hfind2]
    · rw [hfirst]
      have hsecond : defaultQuestionPatch env
          (saveQuestionConfig st { qc with enabled := !qc.enabled }) u =
          (.resp 200 (.enabledVal (!(!qc.enabled))),
           saveQuestionConfig
             (saveQuestionConfig st { qc with enabled := !qc.enabled })
             { qc with enabled := !(!qc.enabled) }) := by
        simp [defaultQuestionPatch, h, hec2, hqid, hfind2]
      rw [hsecond, hqcback]
      exact findQuestionConfig_save _ qid { qc with enabled := !qc.enabled } qc
        hfind2 rfl

/-- Witness for C5: toggling event `1`'s default poll config in `stOne`
twice restores the stored record. -/
theorem patch_toggle_involution_witness :
    check_watchit_uuid envA 1 = true ∧
    findEventConfig stOne 1 = some ⟨1, some 0, none⟩ ∧
    findPollConfig stOne 0 = some ⟨0, true, 5⟩ ∧
    defaultPollPatch envA stOne 1 =
      (.resp 200 (.enabledVal false), savePollConfig stOne ⟨0, false, 5⟩) ∧
    findPollConfig (defaultPollPatch envA (defaultPollPatch envA stOne 1).2 1).2 0 =
      some ⟨0, true, 5⟩ :=
  ⟨by decide, rfl, rfl,
    ((patch_toggle_involution envA stOne 1 (by decide)).1
      ⟨1, some 0, none⟩ 0 ⟨0, true, 5⟩ rfl rfl rfl).1,
    ((patch_toggle_involution envA stOne 1 (by decide)).1
      ⟨1, some 0, none⟩ 0 ⟨0, true, 5⟩ rfl rfl rfl).2.2⟩

/-- C8: PUT on a recognized event and an existing config record validates
the payload against the kind's update schema (400 with the serializer's
field errors on failure, store unchanged), applies the validated fields
onto the existing record in place — same table length, other tables
untouched, the record now carrying the payload's fields — and returns 200
with the updated representation; a missing record id fails with the
validation error `{<kind>_configuration_id: "<kind> config not found"}`,
the same error as the per-resource GET. -/
theorem put_updates_in_place (env : Env) (st : Store) (u : Nat)
    (data : ConfigData) (h : check_watchit_uuid env u = true) :
    ((∀ pid, findPollConfig st pid = none →
      configPollPut env st u pid data =
        (.vError "poll_configuration_id" "poll config not found", st)) ∧
     (∀ pid pc, findPollConfig st pid = some pc →
      env.pollUpdateValid data = false →
      configPollPut env st u pid data = (.resp 400 .fieldErrors, st)) ∧
     (∀ pid pc, findPollConfig st pid = some pc →
      env.pollUpdateValid data = true →
      configPollPut env st u pid data =
        (.resp 200 (.configData ⟨data.enabled, data.settings⟩),
         savePollConfig st (updatePollConfig pc data)) ∧
      (savePollConfig st (updatePollConfig pc data)).pollConfigs.length =
        st.pollConfigs.length ∧
      (savePollConfig st (updatePollConfig pc data)).eventConfigs =
        st.eventConfigs ∧
      (savePollConfig st (updatePollConfig pc data)).questionConfigs =
        st.questionConfigs ∧
      findPollConfig (savePollConfig st (updatePollConfig pc data)) pid =
        some (updatePollConfig pc data))) ∧
    ((∀ qid, findQuestionConfig st qid = none →
      configQuestionPut env st u qid data =
        (.vError "question_configuration_id" "question config not found", st)) ∧
     (∀ qid qc, findQuestionConfig st qid = some qc →
      env.questionUpdateValid data = false →
      configQuestionPut env st u qid data = (.resp 400 .fieldErrors, st)) ∧
     (∀ qid qc, findQuestionConfig st qid = some qc →
      env.questionUpdateValid data = true →
      configQuestionPut env st u qid data =
        (.resp 200 (.configData ⟨data.enabled, data.settings⟩),
         saveQuestionConfig st (updateQuestionConfig qc data)) ∧
      (saveQuestionConfig st (updateQuestionConfig qc data)).questionConfigs.length =
        st.questionConfigs.length ∧
      (saveQuestionConfig st (updateQuestionConfig qc data)).eventConfigs =
        st.eventConfigs ∧
      (saveQuestionConfig st (updateQuestionConfig qc data)).pollConfigs =
        st.pollConfigs ∧
      findQuestionConfig (saveQuestionConfig st (updateQuestionConfig qc data)) qid =
        some (updateQuestionConfig qc data))) := by
  refine ⟨⟨fun pid hnone => ?_, fun pid pc hpc hv => ?_, fun pid pc hpc hv =>
      ⟨?_, ?_, rfl, rfl, findPollConfig_save st pid pc _ hpc rfl⟩⟩,
    ⟨fun qid hnone => ?_, fun qid qc hqc hv => ?_, fun qid qc hqc hv =>
      ⟨?_, ?_, rfl, rfl, findQuestionConfig_save st qid qc _ hqc rfl⟩⟩⟩
  · simp [configPollPut, h, hnone]
  · simp [configPollPut, h, hpc, hv]
  · simp [configPollPut, h, hpc, hv, updatePollConfig, PollConfig.data]
  · simp [savePollConfig]
  · simp [configQuestionPut, h, hnone]
  · simp [configQuestionPut, h, hqc, hv]
  · simp [configQuestionPut, h, hqc, hv, updateQuestionConfig,
      QuestionConfig.data]
  · simp [saveQuestionConfig]

/-- Witness for C8: PUT on a missing poll-config id in the empty store. -/
theorem put_updates_in_place_witness :
    check_watchit_uuid envA 1 = true ∧ findPollConfig stEmpty 7 = none ∧
    configPollPut envA stEmpty 1 7 ⟨true, 5⟩ =
      (.vError "poll_configuration_id" "poll config not found", stEmpty) :=
  ⟨by decide, rfl,
    (put_updates_in_place envA stEmpty 1 ⟨true, 5⟩ (by decide)).1.1 7 rfl⟩

/-- Reinterpret a poll configuration record as a question configuration
record (the two models carry the same fields). -/
def PollConfig.toQuestion (pc : PollConfig) : QuestionConfig :=
  ⟨pc.id, pc.enabled, pc.settings⟩

/-- Reinterpret a question configuration record as a poll configuration
record. -/
def QuestionConfig.toPoll (qc : QuestionConfig) : PollConfig :=
  ⟨qc.id, qc.enabled, qc.settings⟩

/-- Exchange the two default references of an `EventConfig`. -/
def EventConfig.swapKinds (ec : EventConfig) : EventConfig :=
  ⟨ec.watchit_uuid, ec.default_questions_config, ec.default_polls_config⟩

/-- Exchange the roles of polls and questions throughout the store. -/
def Store.swapKinds (st : Store) : Store :=
  ⟨st.eventConfigs.map EventConfig.swapKinds,
   st.questionConfigs.map QuestionConfig.toPoll,
   st.pollConfigs.map PollConfig.toQuestion,
   st.polls, st.nextId⟩

/-- Exchange the poll and question serializer predicates. -/
def Env.swapKinds (env : Env) : Env :=
  ⟨env.knownWatchits, env.questionValid, env.pollValid,
   env.questionUpdateValid, env.pollUpdateValid⟩

/-- Substitute "poll" for "question" (and conversely) in the not-found
messages the default-config managers produce. -/
def swapKindMsg (s : String) : String :=
  if s = "poll config not found" then "question config not found"
  else if s = "question config not found" then "poll config not found"
  else s

/-- Apply the kind substitution to a handler result. -/
def HResult.swapKinds : HResult → HResult
  | .vError f m => .vError f (swapKindMsg m)
  | r => r

theorem swapKindMsg_watchit :
    swapKindMsg "watchit not found" = "watchit not found" := by decide

theorem swapKindMsg_eventConfig :
    swapKindMsg "event config not found" = "event config not found" := by decide

theorem swapKindMsg_poll :
    swapKindMsg "poll config not found" = "question config not found" := by decide

/-- Event-config lookup commutes with the kind swap. -/
theorem findEventConfig_swapKinds (st : Store) (u : Nat) :
    findEventConfig (Store.swapKinds st) u =
      (findEventConfig st u).map EventConfig.swapKinds := by
  show (st.eventConfigs.map EventConfig.swapKinds).find?
      (fun e => e.watchit_uuid == u) =
    (st.eventConfigs.find? (fun e => e.watchit_uuid == u)).map
      EventConfig.swapKinds
  rw [List.find?_map]
  rfl

/-- Question-config lookup on the swapped store is poll-config lookup. -/
theorem findQuestionConfig_swapKinds (st : Store) (pk : Nat) :
    findQuestionConfig (Store.swapKinds st) pk =
      (findPollConfig st pk).map PollConfig.toQuestion := by
  show (st.pollConfigs.map PollConfig.toQuestion).find? (fun c => c.id == pk) =
    (st.pollConfigs.find? (fun c => c.id == pk)).map PollConfig.toQuestion
  rw [List.find?_map]
  rfl

/-- `get_or_create` commutes with the kind swap. -/
theorem getOrCreateEventConfig_swapKinds (st : Store) (u : Nat) :
    getOrCreateEventConfig (Store.swapKinds st) u =
      (EventConfig.swapKinds (getOrCreateEventConfig st u).1,
       Store.swapKinds (getOrCreateEventConfig st u).2) := by
  unfold getOrCreateEventConfig
  rw [findEventConfig_swapKinds]
  cases hfind : findEventConfig st u with
  | some ec => rfl
  | none =>
    simp [Store.swapKinds, EventConfig.swapKinds]

/-- Writing back an event config commutes with the kind swap. -/
theorem saveEventConfig_swapKinds (st : Store) (ec : EventConfig) :
    saveEventConfig (Store.swapKinds st) (EventConfig.swapKinds ec) =
      Store.swapKinds (saveEventConfig st ec) := by
  unfold saveEventConfig Store.swapKinds
  simp only [List.map_map, Store.mk.injEq, true_and, and_true]
  exact List.map_congr_left fun e he => by
    by_cases hc : (e.watchit_uuid == ec.watchit_uuid) = true <;>
      simp [Function.comp, EventConfig.swapKinds, hc]

/-- Inserting a question config into the swapped store mirrors inserting
a poll config. -/
theorem insertQuestionConfig_swapKinds (st : Store) (d : ConfigData) :
    insertQuestionConfig (Store.swapKinds st) d =
      (PollConfig.toQuestion (insertPollConfig st d).1,
       Store.swapKinds (insertPollConfig st d).2) := by
  unfold insertQuestionConfig insertPollConfig Store.swapKinds
  simp [PollConfig.toQuestion]

/-- Writing back a question config on the swapped store mirrors writing
back the corresponding poll config. -/
theorem saveQuestionConfig_swapKinds (st : Store) (qc : QuestionConfig) :
    saveQuestionConfig (Store.swapKinds st) qc =
      Store.swapKinds (savePollConfig st (QuestionConfig.toPoll qc)) := by
  unfold saveQuestionConfig savePollConfig Store.swapKinds
  simp only [List.map_map, Store.mk.injEq, true_and, and_true]
  exact List.map_congr_left fun c hc => by
    by_cases hid : (c.id == qc.id) = true <;>
      simp [Function.comp, PollConfig.toQuestion, QuestionConfig.toPoll, hid]

/-- Deleting a question config from the swapped store mirrors deleting
the corresponding poll config. -/
theorem deleteQuestionConfig_swapKinds (st : Store) (pk : Nat) :
    deleteQuestionConfig (Store.swapKinds st) pk =
      Store.swapKinds (deletePollConfig st pk) := by
  unfold deleteQuestionConfig deletePollConfig Store.swapKinds
  simp only [List.filter_map, Store.mk.injEq, true_and, and_true]
  rfl

theorem swapKinds_dq (ec : EventConfig) :
    (EventConfig.swapKinds ec).default_questions_config =
      ec.default_polls_config := rfl

theorem swapKinds_set_dq (ec : EventConfig) (v : Option Nat) :
    { EventConfig.swapKinds ec with default_questions_config := v } =
      EventConfig.swapKinds { ec with default_polls_config := v } := rfl

theorem toQuestion_id (pc : PollConfig) :
    (PollConfig.toQuestion pc).id = pc.id := rfl

/-- C9: the question-side default-config manager is the poll-side manager
under the kind substitution: running question Read / Create-or-Replace /
Toggle on the kind-swapped store and environment yields exactly the
poll-side result with "poll" and "question" exchanged in messages and the
kind swap applied to the final store. -/
theorem poll_question_equivalence (env : Env) (st : Store) (u : Nat)
    (data : ConfigData) :
    defaultQuestionGet (Env.swapKinds env) (Store.swapKinds st) u =
      (HResult.swapKinds (defaultPollGet env st u).1,
       Store.swapKinds (defaultPollGet env st u).2) ∧
    defaultQuestionPost (Env.swapKinds env) (Store.swapKinds st) u data =
      (HResult.swapKinds (defaultPollPost env st u data).1,
       Store.swapKinds (defaultPollPost env st u data).2) ∧
    defaultQuestionPatch (Env.swapKinds env) (Store.swapKinds st) u =
      (HResult.swapKinds (defaultPollPatch env st u).1,
       Store.swapKinds (defaultPollPatch env st u).2) := by
  have hchk : check_watchit_uuid (Env.swapKinds env) u =
      check_watchit_uuid env u := rfl
  refine ⟨?_, ?_, ?_⟩
  · cases hc : check_watchit_uuid env u with
    | false =>
      simp [defaultQuestionGet, defaultPollGet, hchk, hc, HResult.swapKinds,
        swapKindMsg_watchit]
    | true =>
      cases hfind : findEventConfig st u with
      | none =>
        simp [defaultQuestionGet, defaultPollGet, hchk, hc,
          findEventConfig_swapKinds, hfind, HResult.swapKinds,
          swapKindMsg_eventConfig]
      | some ec =>
        cases hdp : ec.default_polls_config with
        | none =>
          simp [defaultQuestionGet, defaultPollGet, hchk, hc,
            findEventConfig_swapKinds, hfind, swapKinds_dq, hdp,
            HResult.swapKinds, swapKindMsg_poll]
        | some pid =>
          cases hfp : findPollConfig st pid with
          | none =>
            simp [defaultQuestionGet, defaultPollGet, hchk, hc,
              findEventConfig_swapKinds, findQuestionConfig_swapKinds, hfind,
              swapKinds_dq, hdp, hfp, HResult.swapKinds]
          | some pc =>
            simp [defaultQuestionGet, defaultPollGet, hchk, hc,
              findEventConfig_swapKinds, findQuestionConfig_swapKinds, hfind,
              swapKinds_dq, hdp, hfp, HResult.swapKinds,
              PollConfig.toQuestion, PollConfig.data, QuestionConfig.data]
  · cases hc : check_watchit_uuid env u with
    | false =>
      simp [defaultQuestionPost, defaultPollPost, hchk, hc, HResult.swapKinds,
        swapKindMsg_watchit]
    | true =>
      cases hv : env.pollValid data with
      | false =>
        have hv' : (Env.swapKinds env).questionValid data = false := hv
        simp [defaultQuestionPost, defaultPollPost, hchk, hc, hv, hv',
          HResult.swapKinds]
      | true =>
        have hv' : (Env.swapKinds env).questionValid data = true := hv
        rcases hG : getOrCreateEventConfig st u with ⟨A, B⟩
        rcases hI : insertPollConfig B data with ⟨N, C⟩
        cases hdp : A.default_polls_config with
        | none =>
          simp [defaultQuestionPost, defaultPollPost, hchk, hc, hv, hv',
            getOrCreateEventConfig_swapKinds, hG, insertQuestionConfig_swapKinds,
            hI, swapKinds_dq, swapKinds_set_dq, toQuestion_id,
            saveEventConfig_swapKinds, hdp, HResult.swapKinds]
        | some oldId =>
          simp [defaultQuestionPost, defaultPollPost, hchk, hc, hv, hv',
            getOrCreateEventConfig_swapKinds, hG, insertQuestionConfig_swapKinds,
            hI, swapKinds_dq, swapKinds_set_dq, toQuestion_id,
            saveEventConfig_swapKinds, deleteQuestionConfig_swapKinds, hdp,
            HResult.swapKinds]
  · cases hc : check_watchit_uuid env u with
    | false =>
      simp [defaultQuestionPatch, defaultPollPatch, hchk, hc, HResult.swapKinds,
        swapKindMsg_watchit]
    | true =>
      cases hfind : findEventConfig st u with
      | none =>
        simp [defaultQuestionPatch, defaultPollPatch, hchk, hc,
          findEventConfig_swapKinds, hfind, HResult.swapKinds,
          swapKindMsg_eventConfig]
      | some ec =>
        cases hdp : ec.default_polls_config with
        | none =>
          simp [defaultQuestionPatch, defaultPollPatch, hchk, hc,
            findEventConfig_swapKinds, hfind, swapKinds_dq, hdp,
            HResult.swapKinds, swapKindMsg_poll]
        | some pid =>
          cases hfp : findPollConfig st pid with
          | none =>
            simp [defaultQuestionPatch, defaultPollPatch, hchk, hc,
              findEventConfig_swapKinds, findQuestionConfig_swapKinds, hfind,
              swapKinds_dq, hdp, hfp, HResult.swapKinds]
          | some pc =>
            simp [defaultQuestionPatch, defaultPollPatch, hchk, hc,
              findEventConfig_swapKinds, findQuestionConfig_swapKinds, hfind,
              swapKinds_dq, hdp, hfp, HResult.swapKinds,
              saveQuestionConfig_swapKinds, PollConfig.toQuestion,
              QuestionConfig.toPoll]
